import Mathlib

/-!
Verification of the bluesky-bot repository core: a shallow embedding of the
post-generation pipeline and round-robin orchestrator, translated from
src/scripts/base_bot.py, self_refine_bot.py, dpo_bot.py, orchestrator.py and
preference_manager.py, together with theorems settling the frozen claims
C1 to C10.

Python strings are modelled as Lean `String` (both `len` and `String.length`
count Unicode code points).  The external text-generation, moderation and
posting services are modelled as explicit environments supplying each call's
outcome, since the code treats them as black-box synchronous calls.
-/

namespace BlueskyBot

/-! ## Python string primitives

Structural re-implementations of the Python string operations the sources
use (`in`, `lower`, `strip`, `split`, `startswith`, `count`), written over
`List Char` so every definition reduces in the kernel. -/

/-- Test whether the pattern list is an initial segment of the second list
(the semantics of Python `startswith` over code points). -/
def strLeads : List Char → List Char → Bool
  | [], _ => true
  | _ :: _, [] => false
  | a :: as, b :: bs => a == b && strLeads as bs

/-- Substring containment: Python `pat in s` (empty pattern is contained). -/
def strHas : List Char → List Char → Bool
  | pat, [] => strLeads pat []
  | pat, c :: rest => strLeads pat (c :: rest) || strHas pat rest

/-- Python `pat in s` on strings. -/
def pyContains (pat s : String) : Bool := strHas pat.data s.data

/-- Python `s.startswith(pat)`. -/
def pyStartsWith (s pat : String) : Bool := strLeads pat.data s.data

/-- Python `s.lower()`.  `Char.toLower` lower-cases the ASCII range, which is
the only cased text the sources compare; the signature emoji are unaffected
by lower-casing in both languages. -/
def pyLower (s : String) : String := String.mk (s.data.map Char.toLower)

/-- ASCII whitespace dropped by Python `str.strip`. -/
def isPyWs (c : Char) : Bool :=
  c == ' ' || c == '\t' || c == '\n' || c == '\r' || c == '\x0b' || c == '\x0c'

/-- Drop leading whitespace characters. -/
def dropWs : List Char → List Char
  | [] => []
  | c :: cs => if isPyWs c then dropWs cs else c :: cs

/-- Python `s.strip()`: remove whitespace from both ends. -/
def pyStrip (s : String) : String :=
  String.mk ((dropWs (dropWs s.data).reverse).reverse)

/-- Helper for Python `s.split('\n')`: accumulate the current line (reversed). -/
def splitLinesAux : List Char → List Char → List String
  | [], acc => [String.mk acc.reverse]
  | c :: cs, acc =>
      if c == '\n' then String.mk acc.reverse :: splitLinesAux cs []
      else splitLinesAux cs (c :: acc)

/-- Python `s.split('\n')` (so `""` gives `[""]`, and separators delimit). -/
def pySplitLines (s : String) : List String := splitLinesAux s.data []

/-- Everything after the first `':'` (Python `s.split(':', 1)[1]` when a colon
is present; the callers guard on `':' in s`). -/
def afterFirstColon : List Char → List Char
  | [] => []
  | c :: cs => if c == ':' then cs else afterFirstColon cs

/-- String version of `afterFirstColon`. -/
def pyAfterColon (s : String) : String := String.mk (afterFirstColon s.data)

/-- Python `s.count('#')` (single-character needle). -/
def countHash (s : String) : Nat := (s.data.filter (fun c => c == '#')).length

/-! ## Validation rules

From `BaseBot.validate_post` (src/scripts/base_bot.py lines 129-147),
`SelfRefineBot.validate_post` (src/scripts/self_refine_bot.py lines 197-229)
and `DPOBot.validate_post` (src/scripts/dpo_bot.py lines 263-295).  The
pirate-tone check in the two strategy validators only logs a warning and
never affects the returned value, so it is not part of the result. -/

/-- The `rules` section of the configuration used by `BaseBot.validate_post`. -/
structure Rules where
  forbidden_words : List String
  max_hashtags : Nat
deriving DecidableEq

/-- Forbidden-word rule of `BaseBot.validate_post`: some configured word,
lower-cased, occurs in the lower-cased post. -/
def hasForbidden (rules : Rules) (post : String) : Bool :=
  rules.forbidden_words.any (fun w => pyContains (pyLower w) (pyLower post))

/-- Hashtag rule of `BaseBot.validate_post`. -/
def tooManyHashtags (rules : Rules) (post : String) : Bool :=
  decide (rules.max_hashtags < countHash post)

/-- Embedding of `BaseBot.validate_post`: length, forbidden words, hashtag count. -/
def baseValidatePost (rules : Rules) (post : String) : Bool :=
  if 300 < post.length then false
  else if hasForbidden rules post then false
  else if tooManyHashtags rules post then false
  else true

/-- The prohibited-content list shared verbatim by the two strategy
validators. -/
def prohibitedWords : List String :=
  ["crypto", "trading", "buy", "sell", "investment advice"]

/-- Prohibited-content rule of the strategy validators: some prohibited word
occurs in the lower-cased content. -/
def hasProhibited (content : String) : Bool :=
  prohibitedWords.any (fun w => pyContains w (pyLower content))

/-- Embedding of `SelfRefineBot.validate_post`: length, signature emoji, prohibited
content (the pirate-tone block only prints a warning). -/
def selfRefineValidatePost (content : String) : Bool :=
  if 300 < content.length then false
  else if !(pyContains "✍️" content) then false
  else if hasProhibited content then false
  else true

/-- Embedding of `DPOBot.validate_post`: identical shape with the 🔄 signature emoji. -/
def dpoValidatePost (content : String) : Bool :=
  if 300 < content.length then false
  else if !(pyContains "🔄" content) then false
  else if hasProhibited content then false
  else true

end BlueskyBot

namespace BlueskyBot

/-! ## Self-Critique strategy

From `SelfRefineBot.generate_post_with_details`
(src/scripts/self_refine_bot.py lines 89-173).  The three text-service calls
and the moderation service are external; an `SRFEnv` supplies, for each call,
whether it raises and what text or flag it otherwise yields.
`_passes_moderation` (lines 175-182) already maps a moderation-service
failure to "not flagged", so the environment's `flagged` function is the
post-failure-handling result.  `random.choice` in `_generate_fallback_post`
is supplied as the pool index `fallbackIdx`. -/

/-- Outcomes of the external calls made during one generation attempt. -/
structure SRFEnv where
  draftFails : Bool
  draftMsg : String
  draftText : String
  critiqueFails : Bool
  critiqueMsg : String
  critiqueText : String
  refineFails : Bool
  refineMsg : String
  refineText : String
  flagged : String → Bool
  useModeration : Bool
  fallbackIdx : Fin 3

/-- The mutable `process_details` dictionary.  A key that was never written
reads back as the `dict.get` default used when the row is persisted (empty
string or `False`).  The constant `timestamp`, `bot_type` and truncated
`prompt` entries carry no claim-relevant information and are kept out. -/
structure SRDetails where
  improvementMade : Bool
  errorMessage : String
  initialDraft : String
  critique : String
  refinedPost : String
deriving DecidableEq

/-- Result of one `generate_post_with_details` run: the returned text, the
process details, and (as instrumentation for the moderation claims) the list
of texts the moderation service was invoked on, in call order. -/
structure SRResult where
  content : String
  details : SRDetails
  moderationCalls : List String

/-- The three pre-authored fallback field notes of
`SelfRefineBot._generate_fallback_post` (lines 184-195). -/
def srFallbacks : List String :=
  ["Ahoy! Just discovered GitHub Copilot helping developers code 55% faster in enterprise ships. Microsoft\x27s AI mate is revolutionizing how crews build software. Every line counts on the digital seas! ✍️",
   "Matey! Spotted Grammarly\x27s AI writing assistant used by 30M+ sailors worldwide. Their ML checks grammar, tone, and clarity in real-time. Clean communication = successful voyages! ✍️",
   "Avast! Found Notion\x27s AI features helping teams organize knowledge 40% faster. Auto-summaries and smart search keep crews aligned. Information management be the new treasure! ✍️"]

/-- Embedding of `_generate_fallback_post`: the pool entry chosen by `random.choice`. -/
def fallbackPost (i : Fin 3) : String := srFallbacks.get i

/-- Embedding of `SelfRefineBot.generate_post_with_details`, lines 89-173.  Exceptions
from the three `chat.completions.create` calls are caught by the enclosing
`try`, which fills `error_message` with `str(e)` and returns a fallback
post.  Moderation (when enabled) is checked on the initial draft (line 117,
flagged: return fallback) and again on the refined post (line 163, flagged:
return the initial draft).  `improvement_made` is the literal test of line
158 on the raw draft and refined strings. -/
def generatePostWithDetails (env : SRFEnv) : SRResult :=
  let d0 : SRDetails :=
    { improvementMade := false, errorMessage := "", initialDraft := ""
      critique := "", refinedPost := "" }
  if env.draftFails then
    { content := fallbackPost env.fallbackIdx
      details := { d0 with errorMessage := env.draftMsg }
      moderationCalls := [] }
  else
    let draft := env.draftText
    let d1 := { d0 with initialDraft := draft }
    let mc1 := if env.useModeration then [draft] else []
    if env.useModeration && env.flagged draft then
      { content := fallbackPost env.fallbackIdx
        details := { d1 with errorMessage := "Content flagged by moderation" }
        moderationCalls := mc1 }
    else if env.critiqueFails then
      { content := fallbackPost env.fallbackIdx
        details := { d1 with errorMessage := env.critiqueMsg }
        moderationCalls := mc1 }
    else
      let d2 := { d1 with critique := env.critiqueText }
      if env.refineFails then
        { content := fallbackPost env.fallbackIdx
          details := { d2 with errorMessage := env.refineMsg }
          moderationCalls := mc1 }
      else
        let refined := env.refineText
        let improvement :=
          decide (refined.length ≠ draft.length) || decide (refined ≠ draft)
        let d3 := { d2 with refinedPost := refined, improvementMade := improvement }
        let mc2 := mc1 ++ (if env.useModeration then [refined] else [])
        if env.useModeration && env.flagged refined then
          { content := draft, details := d3, moderationCalls := mc2 }
        else
          { content := refined, details := d3, moderationCalls := mc2 }

/-- Python `s.endswith(pat)`. -/
def pyEndsWith (s pat : String) : Bool := strLeads pat.data.reverse s.data.reverse

/-- Modelled from the spec wording of claim C3: the refined candidate
"without the signature marker".  No such stripping exists in the source;
this definition removes one trailing `" ✍️"` (the `f"{post} {emoji}"` form of
`BaseBot._add_emoji_signature`) or bare `"✍️"` so the claimed comparison can
be stated and compared with the code's comparison. -/
def candidateWithoutMarker (s : String) : String :=
  if pyEndsWith s " ✍️" then String.mk (s.data.take (s.data.length - 3))
  else if pyEndsWith s "✍️" then String.mk (s.data.take (s.data.length - 2))
  else s

/-! ## Preference-Selection winner choice

From `DPOBot._select_best_candidate` (src/scripts/dpo_bot.py lines 190-239).
The evaluation text is the text-service response; the parsing is pure. -/

/-- Predicate of the winner-line scan (line 217): the stripped line starts
with `SELECTED WINNER:` and (line 218, always true then) contains a colon. -/
def winnerPred (l : String) : Bool :=
  pyStartsWith (pyStrip l) "SELECTED WINNER:" && pyContains ":" l

/-- Predicate of the emoji fallback scan (line 225): the line contains the
signature emoji and its stripped form is longer than 20 characters. -/
def emojiPred (l : String) : Bool :=
  pyContains "🔄" l && decide (20 < (pyStrip l).length)

/-- The winner-line loop of lines 216-220: first matching line's text after
the colon, stripped; `""` when no line matches (Python `selected = ""`). -/
def findWinnerLine : List String → String
  | [] => ""
  | l :: ls => if winnerPred l then pyStrip (pyAfterColon l) else findWinnerLine ls

/-- The emoji fallback loop of lines 223-227: first matching line, stripped;
`""` when none matches. -/
def findEmojiLine : List String → String
  | [] => ""
  | l :: ls => if emojiPred l then pyStrip l else findEmojiLine ls

/-- Embedding of `DPOBot._select_best_candidate` (without the exception path, which only
guards the external evaluation call that here is the given `evaluation`
text): winner line, then emoji-line fallback over the **evaluation** lines,
then first candidate. -/
def selectBestCandidate (candidates : List String) (evaluation : String) :
    String × String :=
  let lines := pySplitLines evaluation
  let selected := findWinnerLine lines
  let selected := if selected == "" then findEmojiLine lines else selected
  let selected :=
    if selected == "" && !candidates.isEmpty then candidates.headD ""
    else selected
  (selected, evaluation)

/-- Modelled from the spec wording of claim C5: the text on the "SELECTED
WINNER" line; if that line is absent, the first **candidate** from the
parsed candidate list containing the signature marker; if no such candidate
exists, the first generated candidate. -/
def specSelectClaim (candidates : List String) (evaluation : String) : String :=
  match (pySplitLines evaluation).find? winnerPred with
  | some l => pyStrip (pyAfterColon l)
  | none =>
    match candidates.find? (fun c => pyContains "🔄" c) with
    | some c => c
    | none => candidates.headD ""

/-- The amended selection rule, stated independently of the loop encoding:
the (stripped) text after the colon of the first `SELECTED WINNER` line when
that text is non-empty; otherwise the first **evaluation-response** line
containing the signature emoji whose stripped form exceeds 20 characters,
stripped; otherwise the first candidate (empty when there are none). -/
def amendedSelect (candidates : List String) (evaluation : String) : String :=
  let lines := pySplitLines evaluation
  let winner :=
    match lines.find? winnerPred with
    | some l => pyStrip (pyAfterColon l)
    | none => ""
  if winner ≠ "" then winner
  else
    match lines.find? emojiPred with
    | some l => pyStrip l
    | none => candidates.headD ""

end BlueskyBot
namespace BlueskyBot

/-! ## Orchestrator

From `BotOrchestrator._post_next` (src/scripts/orchestrator.py lines
277-357), `_save_post_process` (359-383) and `_save_post` (385-409).  A tick
touches: the strategy list and cursor, the `post_process` table (exactly one
row appended per tick through every branch), and the `posts` table (one
`INSERT OR REPLACE` when posting succeeds).  The tick's external outcomes
(the strategy's `generate_post_with_details` behaviour and the
`post_to_bluesky` result, which internally catches its own exceptions and
returns `None` on failure) are supplied by a `TickEnv`.  Within the tick's
`try`, the generate call is the modelled exception source (lines 350-357);
`SelfRefineBot` itself never lets the text-service exception escape, which
composition `postNextSelfRefine` below makes precise. -/

/-- A strategy as the orchestrator uses it: its `bot_type` string and its
`validate_post` function. -/
structure Bot where
  botType : String
  validate : String → Bool

/-- Placeholder used for the (unreachable under the cursor invariant)
out-of-range list access `self.bots[self.current_bot_index]`. -/
def dummyBot : Bot := { botType := "", validate := fun _ => false }

/-- A row of the `post_process` table as `_save_post_process` writes it
(`timestamp`, `prompt` constants omitted; absent dictionary keys read back
as the `get` defaults). -/
structure ProcessRow where
  botType : String
  initialDraft : String
  critique : String
  refinedPost : String
  improvementMade : Bool
  postSuccess : Bool
  errorMessage : String
deriving DecidableEq

/-- A row of the `posts` table as `_save_post` writes it (engagement
counters start at 0 and timestamps are not claim-relevant). -/
structure PostRow where
  uri : String
  cid : String
  text : String
  botType : String
  likes : Nat
  reposts : Nat
  replies : Nat
deriving DecidableEq

/-- Semantics of `INSERT OR REPLACE INTO posts` keyed by the `uri` primary key. -/
def savePost (posts : List PostRow) (p : PostRow) : List PostRow :=
  if posts.any (fun q => q.uri == p.uri) then
    posts.map (fun q => if q.uri == p.uri then p else q)
  else posts ++ [p]

/-- Behaviour of `current_bot.generate_post_with_details()` during a tick:
either an exception escapes it (caught at lines 350-357), or it returns the
post text and the details dictionary. -/
inductive GenBehavior where
  | raises (msg : String)
  | returns (content : String) (details : SRDetails)

/-- External outcomes of one posting tick. -/
structure TickEnv where
  gen : GenBehavior
  postResult : Option (String × String)

/-- State owned by one `BotOrchestrator` instance that `_post_next` reads or
writes, plus the `invoked` ghost log recording, in order, the `bot_type` of
each strategy whose pipeline a tick ran. -/
structure OrchState where
  bots : List Bot
  cursor : Nat
  traces : List ProcessRow
  posts : List PostRow
  isRunning : Bool
  invoked : List String

/-- The per-tick trace row and posts-table update of `_post_next` once the
bot has been selected: exception path (lines 350-357), validation-failure
path (314-323), posting success (331-338) and posting failure (339-342). -/
def tickEffects (bot : Bot) (env : TickEnv) (posts : List PostRow) :
    ProcessRow × List PostRow :=
  match env.gen with
  | .raises msg =>
      ({ botType := bot.botType, initialDraft := "", critique := ""
         refinedPost := "", improvementMade := false, postSuccess := false
         errorMessage := msg }, posts)
  | .returns content d =>
      if bot.validate content then
        match env.postResult with
        | some (uri, cid) =>
            ({ botType := bot.botType, initialDraft := d.initialDraft
               critique := d.critique, refinedPost := d.refinedPost
               improvementMade := d.improvementMade, postSuccess := true
               errorMessage := d.errorMessage },
             savePost posts
               { uri := uri, cid := cid, text := content
                 botType := bot.botType, likes := 0, reposts := 0, replies := 0 })
        | none =>
            ({ botType := bot.botType, initialDraft := d.initialDraft
               critique := d.critique, refinedPost := d.refinedPost
               improvementMade := d.improvementMade, postSuccess := false
               errorMessage := "Bluesky API posting failed" }, posts)
      else
        ({ botType := bot.botType, initialDraft := d.initialDraft
           critique := d.critique, refinedPost := d.refinedPost
           improvementMade := d.improvementMade, postSuccess := false
           errorMessage := "Post validation failed" }, posts)

/-- Embedding of `BotOrchestrator._post_next`: return unchanged when no bots are enabled
(lines 279-282); otherwise select `bots[cursor]`, advance the cursor by one
modulo the list length (line 286), and run the selected strategy's
generate, validate, post and persist sequence once. -/
def postNext (s : OrchState) (env : TickEnv) : OrchState :=
  if s.bots.isEmpty then s
  else
    let bot := s.bots.getD s.cursor dummyBot
    let eff := tickEffects bot env s.posts
    { s with cursor := (s.cursor + 1) % s.bots.length
             invoked := s.invoked ++ [bot.botType]
             traces := s.traces ++ [eff.1]
             posts := eff.2 }

/-- A run of consecutive scheduled posting ticks. -/
def runTicks (s : OrchState) (envs : List TickEnv) : OrchState :=
  envs.foldl postNext s

/-- The `SelfRefineBot` as a `Bot` value. -/
def selfRefineBot : Bot :=
  { botType := "self_refine", validate := selfRefineValidatePost }

/-- One orchestrator tick driving the actual `SelfRefineBot` pipeline: the
strategy's behaviour is computed by `generatePostWithDetails`, which never
raises (its `try` converts text-service exceptions into a fallback return),
and the tick then validates, posts and persists that result. -/
def postNextSelfRefine (s : OrchState) (env : SRFEnv)
    (postResult : Option (String × String)) : OrchState :=
  let r := generatePostWithDetails env
  postNext s { gen := GenBehavior.returns r.content r.details
               postResult := postResult }

end BlueskyBot
namespace BlueskyBot

/-! ## Preference/Deployment manager

From `PreferenceManager` (src/scripts/preference_manager.py).  The SQLite
store is modelled as the two tables `user_preferences` and `deployed_models`
as lists of rows in insertion (rowid) order, plus the autoincrement counter
and a strictly monotone clock standing for `datetime.now().isoformat()`
(ISO timestamps compare chronologically; simultaneous-microsecond ties are
outside the model).  `deploy_dpo_model` performs its `UPDATE` and `INSERT`
on one connection with a single `commit` (lines 88-119), so it is one
atomic transition here. -/

/-- One rated training example, the `best_candidate` entry of an element of
`dpo_learning_data` (an absent `best_candidate` reads as rating 0 via the
`get` defaults and is therefore never accessed as high-rated). -/
structure Example where
  candidate : String
  rating : Nat
deriving DecidableEq

/-- The parsed `preferences_data` JSON payload of a saved session: the
manager only ever reads its `dpo_learning_data` list. -/
structure SessionData where
  dpoLearningData : List Example
deriving DecidableEq

/-- A `user_preferences` row. -/
structure PrefRow where
  rowid : Nat
  timestamp : Nat
  technique : String
  sessionId : String
  preferencesData : SessionData
  deployed : Bool
deriving DecidableEq

/-- The `model_config` JSON produced by `_create_dpo_model_config` (lines
168-226).  The constant preference weights are floating-point literals and
the training date a wall-clock string; neither carries claim-relevant
information and both are omitted. -/
structure ModelConfig where
  avgLength : Nat
  pirateWords : List (String × Nat)
  techCompanies : List (String × Nat)
  totalExamples : Nat
  highRatedExamples : Nat
deriving DecidableEq

/-- A `deployed_models` row. -/
structure ModelRow where
  rowid : Nat
  timestamp : Nat
  technique : String
  modelConfig : ModelConfig
  trainingExamples : Nat
  status : String
deriving DecidableEq

/-- The preference store. -/
structure PrefStore where
  prefs : List PrefRow
  models : List ModelRow
  nextId : Nat
  clock : Nat
deriving DecidableEq

/-- The freshly initialised store (`_init_database` creates empty tables). -/
def emptyStore : PrefStore := { prefs := [], models := [], nextId := 1, clock := 0 }

/-- Stable insertion (after all earlier rows with a smaller-or-equal
timestamp) used to model `ORDER BY timestamp ASC` over rows in rowid order. -/
def insertByTs (r : PrefRow) : List PrefRow → List PrefRow
  | [] => [r]
  | x :: xs => if x.timestamp ≤ r.timestamp then x :: insertByTs r xs
               else r :: x :: xs

/-- Stable sort by timestamp of rows listed in insertion order. -/
def sortByTs (l : List PrefRow) : List PrefRow :=
  l.foldl (fun acc r => insertByTs r acc) []

/-- The rows of `user_preferences` with the given `session_id` (the
`SELECT ... WHERE session_id = ?` of `get_training_data`, line 152, which
does not filter on `technique`). -/
def sessionRows (s : PrefStore) (sessionId : String) : List PrefRow :=
  s.prefs.filter (fun r => r.sessionId == sessionId)

/-- Embedding of `PreferenceManager.get_training_data` (lines 147-166): concatenate the
`dpo_learning_data` lists of the session's rows in timestamp order. -/
def getTrainingData (s : PrefStore) (sessionId : String) : List Example :=
  (sortByTs (sessionRows s sessionId)).foldl
    (fun acc r => acc ++ r.preferencesData.dpoLearningData) []

/-- Embedding of `PreferenceManager.save_dpo_training_session` (lines 53-74): append one
new row and return its rowid. -/
def saveDpoTrainingSession (s : PrefStore) (sessionData : SessionData)
    (sessionId : String) : PrefStore × Nat :=
  ({ prefs := s.prefs ++
       [{ rowid := s.nextId, timestamp := s.clock, technique := "dpo"
          sessionId := sessionId, preferencesData := sessionData
          deployed := false }]
     models := s.models, nextId := s.nextId + 1, clock := s.clock + 1 }, s.nextId)

/-- The store after a save, discarding the returned rowid. -/
def saveStep (s : PrefStore) (sessionData : SessionData) (sessionId : String) :
    PrefStore :=
  (saveDpoTrainingSession s sessionData sessionId).1

/-- Stable insertion for descending-count order (ties keep earlier entries
first), modelling Python's stable `sorted(key=count, reverse=True)`. -/
def insertDesc (x : String × Nat) : List (String × Nat) → List (String × Nat)
  | [] => [x]
  | y :: ys => if x.2 ≤ y.2 then y :: insertDesc x ys else x :: y :: ys

/-- Stable descending sort by count. -/
def sortDesc (l : List (String × Nat)) : List (String × Nat) :=
  l.foldl (fun acc x => insertDesc x acc) []

/-- The fixed pirate vocabulary of `_create_dpo_model_config` (line 196). -/
def configPirateWords : List String :=
  ["ahoy", "matey", "avast", "spotted", "discovered", "treasure", "crew", "ship"]

/-- The fixed tech-term vocabulary of `_create_dpo_model_config` (line 206). -/
def configTechTerms : List String :=
  ["AI", "ML", "GPT", "neural", "algorithm", "machine learning", "deep learning"]

/-- Number of high-rated posts containing the (lower-cased) keyword. -/
def keywordCount (posts : List String) (w : String) : Nat :=
  (posts.filter (fun p => pyContains (pyLower w) (pyLower p))).length

/-- Embedding of `PreferenceManager._create_dpo_model_config` (lines 168-226): filter the
examples to rating ≥ 4, average the lengths of the high-rated candidates
(integer division; 0 when none), and count keyword occurrences. -/
def createDpoModelConfig (trainingData : List Example) : ModelConfig :=
  let highRated := (trainingData.filter (fun e => 4 ≤ e.rating)).map
    (fun e => e.candidate)
  let avg := if highRated.isEmpty then 0
    else (highRated.map String.length).sum / highRated.length
  let pirate := if highRated.isEmpty then []
    else sortDesc ((configPirateWords.map
      (fun w => (w, keywordCount highRated w))).filter (fun x => 0 < x.2))
  let tech := if highRated.isEmpty then []
    else (configTechTerms.map
      (fun w => (w, keywordCount highRated w))).filter (fun x => 0 < x.2)
  { avgLength := avg, pirateWords := pirate, techCompanies := tech
    totalExamples := trainingData.length, highRatedExamples := highRated.length }

/-- Embedding of `PreferenceManager.deploy_dpo_model` (lines 76-126): raise `ValueError`
("No training data found...") when the session has no training data;
otherwise, in one transaction, mark every `deployed_models` row of technique
`dpo` inactive, insert the new row as `active`, and mark the session's
`user_preferences` rows deployed. -/
def deployDpoModel (s : PrefStore) (sessionId : String)
    (trainingExamples : Nat) : Except String PrefStore :=
  let td := getTrainingData s sessionId
  if td.isEmpty then
    Except.error ("No training data found for session " ++ sessionId)
  else
    let cfg := createDpoModelConfig td
    Except.ok
      { prefs := s.prefs.map (fun r =>
          if r.sessionId == sessionId && r.technique == "dpo" then
            { r with deployed := true }
          else r)
        models := (s.models.map (fun r =>
          if r.technique == "dpo" then { r with status := "inactive" } else r)) ++
          [{ rowid := s.nextId, timestamp := s.clock, technique := "dpo"
             modelConfig := cfg, trainingExamples := trainingExamples
             status := "active" }]
        nextId := s.nextId + 1, clock := s.clock + 1 }

/-- The post-state of a deploy call; a raised `ValueError` propagates to the
caller and leaves the store unchanged. -/
def deployOk (s : PrefStore) (sessionId : String) (trainingExamples : Nat) :
    PrefStore :=
  match deployDpoModel s sessionId trainingExamples with
  | Except.ok s2 => s2
  | Except.error _ => s

/-- Whether a model row counts as the active profile of the technique. -/
def isActiveFor (tech : String) (r : ModelRow) : Bool :=
  r.technique == tech && r.status == "active"

/-- The rowids of the active `deployed_models` rows of a technique. -/
def activeIds (s : PrefStore) (tech : String) : List Nat :=
  (s.models.filter (isActiveFor tech)).map (fun r => r.rowid)

/-- Number of active profiles of a technique. -/
def countActive (s : PrefStore) (tech : String) : Nat :=
  (s.models.filter (isActiveFor tech)).length

/-- The manager operations that mutate the store. -/
inductive PrefOp where
  | save (sessionData : SessionData) (sessionId : String)
  | deploy (sessionId : String) (trainingExamples : Nat)

/-- Apply one operation (a failing deploy leaves the store unchanged). -/
def applyOp (s : PrefStore) : PrefOp → PrefStore
  | PrefOp.save d sid => saveStep s d sid
  | PrefOp.deploy sid n => deployOk s sid n

/-- The store reached from a fresh database by a sequence of operations. -/
def applyOps (ops : List PrefOp) : PrefStore :=
  ops.foldl applyOp emptyStore

end BlueskyBot

namespace BlueskyBot

/-! ## Shared lemmas about a posting tick -/

/-- A non-empty list is not `isEmpty`. -/
theorem isEmpty_false_of_ne_nil {α : Type} {l : List α} (h : l ≠ []) :
    l.isEmpty = false := by
  cases l with
  | nil => exact absurd rfl h
  | cons a as => rfl

/-- The `bot_type` of the strategy at a cursor position. -/
def botTypeAt (bots : List Bot) (i : Nat) : String :=
  (bots.getD i dummyBot).botType

/-- Unfolding of `postNext` when at least one strategy is enabled. -/
theorem postNext_ne (s : OrchState) (env : TickEnv) (h : s.bots ≠ []) :
    postNext s env =
      { s with
          cursor := (s.cursor + 1) % s.bots.length
          invoked := s.invoked ++ [botTypeAt s.bots s.cursor]
          traces := s.traces ++
            [(tickEffects (s.bots.getD s.cursor dummyBot) env s.posts).1]
          posts := (tickEffects (s.bots.getD s.cursor dummyBot) env s.posts).2 } := by
  unfold postNext
  rw [isEmpty_false_of_ne_nil h]
  rfl

/-- Combined behaviour of a run of ticks: the strategy list is unchanged,
the cursor advances once per tick modulo the list length, each tick appends
exactly one trace row, the running flag is untouched, and the i-th tick
invokes the strategy at position `(cursor + i) mod n`. -/
theorem runTicks_spec (envs : List TickEnv) :
    ∀ s : OrchState, s.bots ≠ [] → s.cursor < s.bots.length →
      (runTicks s envs).bots = s.bots ∧
      (runTicks s envs).cursor = (s.cursor + envs.length) % s.bots.length ∧
      (runTicks s envs).traces.length = s.traces.length + envs.length ∧
      (runTicks s envs).isRunning = s.isRunning ∧
      (runTicks s envs).invoked = s.invoked ++
        (List.range envs.length).map
          (fun i => botTypeAt s.bots ((s.cursor + i) % s.bots.length)) := by
  induction envs with
  | nil =>
      intro s h hc
      simp [runTicks, Nat.mod_eq_of_lt hc]
  | cons e es ih =>
      intro s h hc
      have hlen : 0 < s.bots.length := List.length_pos.mpr h
      have hstep := postNext_ne s e h
      have hbots : (postNext s e).bots = s.bots := by rw [hstep]
      have hcur : (postNext s e).cursor = (s.cursor + 1) % s.bots.length := by
        rw [hstep]
      have hinv : (postNext s e).invoked =
          s.invoked ++ [botTypeAt s.bots s.cursor] := by rw [hstep]
      have htr : (postNext s e).traces.length = s.traces.length + 1 := by
        rw [hstep]; simp
      have hrun : (postNext s e).isRunning = s.isRunning := by rw [hstep]
      have hne : (postNext s e).bots ≠ [] := by rw [hbots]; exact h
      have hcur' : (postNext s e).cursor < (postNext s e).bots.length := by
        rw [hbots, hcur]; exact Nat.mod_lt _ hlen
      obtain ⟨ib, ic, it, ir, ii⟩ := ih (postNext s e) hne hcur'
      rw [hbots] at ib ic ii
      rw [hcur] at ic ii
      rw [hinv] at ii
      rw [htr] at it
      rw [hrun] at ir
      refine ⟨?_, ?_, ?_, ?_, ?_⟩
      · simpa [runTicks] using ib
      · show (runTicks (postNext s e) es).cursor = _
        rw [ic, Nat.mod_add_mod]
        congr 1
        simp only [List.length_cons]
        omega
      · show (runTicks (postNext s e) es).traces.length = _
        rw [it]
        simp only [List.length_cons]
        omega
      · exact ir
      · show (runTicks (postNext s e) es).invoked = _
        simp only [List.length_cons]
        rw [ii, List.range_succ_eq_map, List.map_cons, List.map_map]
        rw [List.append_assoc, List.singleton_append]
        congr 1
        congr 1
        · show botTypeAt s.bots s.cursor =
            botTypeAt s.bots ((s.cursor + 0) % s.bots.length)
          rw [Nat.add_zero, Nat.mod_eq_of_lt hc]
        · apply List.map_congr_left
          intro i _
          show botTypeAt s.bots (((s.cursor + 1) % s.bots.length + i) % s.bots.length) = _
          rw [Nat.mod_add_mod]
          have harith : s.cursor + 1 + i = s.cursor + Nat.succ i := by omega
          rw [harith]
          rfl

/-- Claim C10: on every tick with a non-empty strategy list the cursor
advances by exactly one modulo the number of strategies regardless of the
tick's outcome (the advance is unconditional across the exception,
validation-failure, posting-failure and success branches), the strategy
whose turn it was is the one at the old cursor, exactly one trace row is
persisted, and the new cursor is again inside `[0, n)`. -/
theorem c10_cursor_advance (s : OrchState) (env : TickEnv) (h : s.bots ≠ []) :
    (postNext s env).cursor = (s.cursor + 1) % s.bots.length ∧
    (postNext s env).cursor < s.bots.length ∧
    (postNext s env).invoked = s.invoked ++ [botTypeAt s.bots s.cursor] ∧
    (postNext s env).traces.length = s.traces.length + 1 := by
  have hlen : 0 < s.bots.length := List.length_pos.mpr h
  have hstep := postNext_ne s env h
  refine ⟨by rw [hstep], ?_, by rw [hstep], by rw [hstep]; simp⟩
  rw [hstep]
  exact Nat.mod_lt _ hlen

/-- Claim C1: over any run of consecutive ticks with a non-empty strategy
list, the i-th tick invokes the strategy at list position
`(cursor + i) mod n` — original list order with the cursor wrapping — and
each tick persists exactly one full-pipeline trace row. -/
theorem c1_round_robin (s : OrchState) (envs : List TickEnv)
    (h : s.bots ≠ []) (hc : s.cursor < s.bots.length) :
    (runTicks s envs).invoked = s.invoked ++
      (List.range envs.length).map
        (fun i => botTypeAt s.bots ((s.cursor + i) % s.bots.length)) ∧
    (runTicks s envs).traces.length = s.traces.length + envs.length ∧
    (runTicks s envs).cursor = (s.cursor + envs.length) % s.bots.length := by
  obtain ⟨_, ic, it, _, ii⟩ := runTicks_spec envs s h hc
  exact ⟨ii, it, ic⟩

end BlueskyBot
namespace BlueskyBot

/-! ## Concrete orchestrator instances used by witnesses -/

/-- Three enabled strategies in a fixed original order. -/
def witnessBots : List Bot :=
  [{ botType := "A", validate := fun _ => true },
   { botType := "B", validate := fun _ => true },
   { botType := "C", validate := fun _ => true }]

/-- A tick outcome whose generation returns and whose posting fails. -/
def plainTickEnv : TickEnv :=
  { gen := GenBehavior.returns "ok"
      { improvementMade := false, errorMessage := "", initialDraft := ""
        critique := "", refinedPost := "" }
    postResult := none }

/-- A tick outcome whose generation raises. -/
def raiseTickEnv : TickEnv :=
  { gen := GenBehavior.raises "boom", postResult := none }

/-- Freshly started orchestrator owning the three witness strategies. -/
def witnessState : OrchState :=
  { bots := witnessBots, cursor := 0, traces := [], posts := []
    isRunning := true, invoked := [] }

/-- Witness for C1: with 3 enabled strategies, 6 consecutive ticks invoke
each strategy exactly twice, in original list order, with the cursor
wrapping back to 0, one trace row per tick. -/
theorem c1_round_robin_witness :
    (runTicks witnessState
        [plainTickEnv, plainTickEnv, plainTickEnv, plainTickEnv, plainTickEnv,
         plainTickEnv]).invoked = ["A", "B", "C", "A", "B", "C"] ∧
    ["A", "B", "C", "A", "B", "C"].count "A" = 2 ∧
    ["A", "B", "C", "A", "B", "C"].count "B" = 2 ∧
    ["A", "B", "C", "A", "B", "C"].count "C" = 2 ∧
    (runTicks witnessState
        [plainTickEnv, plainTickEnv, plainTickEnv, plainTickEnv, plainTickEnv,
         plainTickEnv]).traces.length = 6 ∧
    (runTicks witnessState
        [plainTickEnv, plainTickEnv, plainTickEnv, plainTickEnv, plainTickEnv,
         plainTickEnv]).cursor = 0 := by
  have h := c1_round_robin witnessState
    [plainTickEnv, plainTickEnv, plainTickEnv, plainTickEnv, plainTickEnv,
     plainTickEnv] (List.cons_ne_nil _ _) (by decide)
  exact ⟨h.1.trans rfl, by decide, by decide, by decide, h.2.1.trans rfl,
    h.2.2.trans rfl⟩

/-- Witness for C10: a tick whose generation raises still advances the
cursor by one, keeps it in range, consumes strategy A's turn and persists
one trace row. -/
theorem c10_cursor_advance_witness :
    (postNext witnessState raiseTickEnv).cursor = 1 ∧
    (postNext witnessState raiseTickEnv).cursor < 3 ∧
    (postNext witnessState raiseTickEnv).invoked = ["A"] ∧
    (postNext witnessState raiseTickEnv).traces.length = 1 := by
  have h := c10_cursor_advance witnessState raiseTickEnv (List.cons_ne_nil _ _)
  exact ⟨h.1.trans rfl, h.2.1, h.2.2.1.trans rfl, h.2.2.2.trans rfl⟩

/-! ## Claim C2: a tick whose text-service call raises -/

/-- When the initial text-service call raises, `generate_post_with_details`
catches the exception, records it in `error_message`, and returns a pool
fallback post (src/scripts/self_refine_bot.py lines 170-173). -/
theorem gen_draft_raises (env : SRFEnv) (h : env.draftFails = true) :
    generatePostWithDetails env =
      { content := fallbackPost env.fallbackIdx
        details := { improvementMade := false, errorMessage := env.draftMsg
                     initialDraft := "", critique := "", refinedPost := "" }
        moderationCalls := [] } := by
  unfold generatePostWithDetails
  rw [h]
  rfl

set_option maxRecDepth 40000 in
/-- Every pool fallback note passes `SelfRefineBot.validate_post`. -/
theorem fallback_valid (i : Fin 3) :
    selfRefineValidatePost (fallbackPost i) = true := by
  fin_cases i <;> decide

/-- Amended claim C2: a tick whose text-generation call raises persists
exactly one trace row whose error field is non-empty and leaves the loop
running, but — because the strategy converts the failure into a fallback
post that passes validation — the tick still attempts to post, and a `posts`
row is inserted exactly when the posting call succeeds (on posting failure
the trace's error field is overwritten with the posting error). -/
theorem c2_amended (s : OrchState) (env : SRFEnv) (pr : Option (String × String))
    (hb : s.bots = [selfRefineBot]) (hc : s.cursor = 0)
    (hr : env.draftFails = true) (hm : env.draftMsg ≠ "") :
    (postNextSelfRefine s env pr).isRunning = s.isRunning ∧
    (pr = none →
      (postNextSelfRefine s env pr).traces = s.traces ++
        [{ botType := "self_refine", initialDraft := "", critique := ""
           refinedPost := "", improvementMade := false, postSuccess := false
           errorMessage := "Bluesky API posting failed" }] ∧
      "Bluesky API posting failed" ≠ "" ∧
      (postNextSelfRefine s env pr).posts = s.posts) ∧
    (∀ uri cid, pr = some (uri, cid) →
      (postNextSelfRefine s env pr).traces = s.traces ++
        [{ botType := "self_refine", initialDraft := "", critique := ""
           refinedPost := "", improvementMade := false, postSuccess := true
           errorMessage := env.draftMsg }] ∧
      env.draftMsg ≠ "" ∧
      (postNextSelfRefine s env pr).posts = savePost s.posts
        { uri := uri, cid := cid, text := fallbackPost env.fallbackIdx
          botType := "self_refine", likes := 0, reposts := 0, replies := 0 }) := by
  have hne : s.bots ≠ [] := by rw [hb]; exact List.cons_ne_nil _ _
  have hg := gen_draft_raises env hr
  have hpn : postNextSelfRefine s env pr = postNext s
      { gen := GenBehavior.returns (generatePostWithDetails env).content
          (generatePostWithDetails env).details
        postResult := pr } := rfl
  have hbot : s.bots.getD s.cursor dummyBot = selfRefineBot := by
    rw [hb, hc]; rfl
  have hstep := postNext_ne s
    { gen := GenBehavior.returns (generatePostWithDetails env).content
        (generatePostWithDetails env).details
      postResult := pr } hne
  rw [hbot] at hstep
  have hval : selfRefineValidatePost (fallbackPost env.fallbackIdx) = true :=
    fallback_valid env.fallbackIdx
  refine ⟨?_, ?_, ?_⟩
  · rw [hpn, hstep]
  · intro hnone
    subst hnone
    refine ⟨?_, by decide, ?_⟩
    · rw [hpn, hstep]
      simp [tickEffects, hg, hval, selfRefineBot]
    · rw [hpn, hstep]
      simp [tickEffects, hg, hval, selfRefineBot]
  · intro uri cid hsome
    subst hsome
    refine ⟨?_, hm, ?_⟩
    · rw [hpn, hstep]
      simp [tickEffects, hg, hval, selfRefineBot]
    · rw [hpn, hstep]
      simp [tickEffects, hg, hval, selfRefineBot]

end BlueskyBot
namespace BlueskyBot

/-- Orchestrator state used by the C2 scenario: one enabled Self-Critique
strategy, fresh tables. -/
def c2state : OrchState :=
  { bots := [selfRefineBot], cursor := 0, traces := [], posts := []
    isRunning := true, invoked := [] }

/-- A tick environment whose initial text-service call raises. -/
def c2raiseEnv : SRFEnv :=
  { draftFails := true, draftMsg := "API timeout", draftText := ""
    critiqueFails := false, critiqueMsg := "", critiqueText := ""
    refineFails := false, refineMsg := "", refineText := ""
    flagged := fun _ => false, useModeration := true, fallbackIdx := 0 }

set_option maxRecDepth 100000 in
/-- Counterexample to claim C2 as stated: on a tick whose text-generation
call raises, the persisted trace does carry the non-empty error and the
loop keeps running, but the fallback post is posted, so a new `posts` row
IS inserted (here, one row where the claim requires none). -/
theorem c2_counterexample :
    (postNextSelfRefine c2state c2raiseEnv (some ("at://post/1", "cid1"))).posts.length = 1 ∧
    (postNextSelfRefine c2state c2raiseEnv (some ("at://post/1", "cid1"))).traces.map
      (fun r => r.errorMessage) = ["API timeout"] ∧
    (postNextSelfRefine c2state c2raiseEnv (some ("at://post/1", "cid1"))).isRunning = true := by
  decide

/-- Witness for the amended claim C2 at the concrete raising scenario. -/
theorem c2_amended_witness :
    (postNextSelfRefine c2state c2raiseEnv (some ("at://post/1", "cid1"))).traces =
      [{ botType := "self_refine", initialDraft := "", critique := ""
         refinedPost := "", improvementMade := false, postSuccess := true
         errorMessage := "API timeout" }] ∧
    (postNextSelfRefine c2state c2raiseEnv (some ("at://post/1", "cid1"))).isRunning = true := by
  have h := c2_amended c2state c2raiseEnv (some ("at://post/1", "cid1"))
    rfl rfl rfl (by decide)
  obtain ⟨hrun, _, hsome⟩ := h
  obtain ⟨ht, _, _⟩ := hsome "at://post/1" "cid1" rfl
  exact ⟨ht.trans rfl, hrun.trans rfl⟩

/-! ## Claim C3: the improvement flag of the Self-Critique strategy -/

/-- A completed generation attempt in which the refined text is the initial
draft with the signature marker appended. -/
def c3env : SRFEnv :=
  { draftFails := false, draftMsg := "", draftText := "Ahoy spotted treasure"
    critiqueFails := false, critiqueMsg := "", critiqueText := "Add the emoji"
    refineFails := false, refineMsg := "", refineText := "Ahoy spotted treasure ✍️"
    flagged := fun _ => false, useModeration := false, fallbackIdx := 0 }

set_option maxRecDepth 4000 in
/-- Counterexample to claim C3 as stated: here the refined candidate minus
the signature marker equals the initial draft, so the claimed comparison
demands `improvement_made = false`, yet the code (line 158 compares the raw
strings, never stripping the marker) sets it to true. -/
theorem c3_counterexample :
    candidateWithoutMarker (generatePostWithDetails c3env).details.refinedPost =
      (generatePostWithDetails c3env).details.initialDraft ∧
    (generatePostWithDetails c3env).details.improvementMade = true := by
  decide

/-- Full unfolding of a generation attempt in which the three text-service
calls succeed and the initial draft is not flagged. -/
theorem gen_completes (env : SRFEnv) (hd : env.draftFails = false)
    (hflag : (env.useModeration && env.flagged env.draftText) = false)
    (hc : env.critiqueFails = false) (hr : env.refineFails = false) :
    generatePostWithDetails env =
      { content := (if env.useModeration && env.flagged env.refineText then env.draftText else env.refineText)
        details := { improvementMade := (decide (env.refineText.length ≠ env.draftText.length) || decide (env.refineText ≠ env.draftText)), errorMessage := "", initialDraft := env.draftText, critique := env.critiqueText, refinedPost := env.refineText }
        moderationCalls := (if env.useModeration then [env.draftText] else []) ++ (if env.useModeration then [env.refineText] else []) } := by
  simp only [generatePostWithDetails]
  simp [hd, hflag, hc, hr]
  split <;> rfl

/-- Amended claim C3: on every completed attempt, `improvement_made` is the
literal string inequality between the raw refined text and the raw initial
draft — the signature marker is not stripped and no semantic comparison
occurs (the redundant length disjunct of line 158 collapses into the
inequality). -/
theorem c3_amended (env : SRFEnv) (hd : env.draftFails = false)
    (hflag : (env.useModeration && env.flagged env.draftText) = false)
    (hc : env.critiqueFails = false) (hr : env.refineFails = false) :
    (generatePostWithDetails env).details.improvementMade =
      decide (env.refineText ≠ env.draftText) := by
  rw [gen_completes env hd hflag hc hr]
  show (decide (env.refineText.length ≠ env.draftText.length) ||
      decide (env.refineText ≠ env.draftText)) = decide (env.refineText ≠ env.draftText)
  by_cases h : env.refineText = env.draftText
  · rw [h]
    simp
  · have hne : decide (env.refineText ≠ env.draftText) = true := decide_eq_true h
    rw [hne, Bool.or_true]

/-- Witness for the amended claim C3: the marker-appending refinement above
counts as an improvement because the raw strings differ. -/
theorem c3_amended_witness :
    (generatePostWithDetails c3env).details.improvementMade = true := by
  have h := c3_amended c3env rfl rfl rfl rfl
  rw [h]
  decide

/-! ## Claim C4: where moderation is applied -/

/-- A completed generation attempt with moderation enabled and nothing
flagged. -/
def c4env : SRFEnv :=
  { draftFails := false, draftMsg := "", draftText := "Ahoy drafty treasure note"
    critiqueFails := false, critiqueMsg := "", critiqueText := "Tighten it"
    refineFails := false, refineMsg := ""
    refineText := "Ahoy refined treasure note ✍️"
    flagged := fun _ => false, useModeration := true, fallbackIdx := 0 }

/-- The same attempt but with the refined candidate flagged by moderation. -/
def c4envFlag : SRFEnv :=
  { c4env with flagged := fun t => t == "Ahoy refined treasure note ✍️" }

set_option maxRecDepth 4000 in
/-- Counterexample to claim C4 as stated: in a completed attempt with
moderation enabled the moderation service is invoked twice, and the first
invocation is on the initial draft, not the final refined candidate. -/
theorem c4_counterexample :
    (generatePostWithDetails c4env).moderationCalls =
      ["Ahoy drafty treasure note", "Ahoy refined treasure note ✍️"] ∧
    (generatePostWithDetails c4env).moderationCalls.length = 2 := by
  decide

/-- Amended claim C4: with moderation enabled, a generation attempt whose
three text-service calls succeed moderates the initial draft first — if
flagged, it returns a synthetic pool fallback with the moderation error —
and otherwise moderates the refined candidate as the second and last call;
when only that final candidate is flagged, the strategy returns the initial
draft rather than a synthetic fallback post. -/
theorem c4_amended (env : SRFEnv) (hm : env.useModeration = true)
    (hd : env.draftFails = false) (hc : env.critiqueFails = false)
    (hr : env.refineFails = false) :
    (env.flagged env.draftText = true →
      (generatePostWithDetails env).moderationCalls = [env.draftText] ∧
      (generatePostWithDetails env).content = fallbackPost env.fallbackIdx ∧
      (generatePostWithDetails env).details.errorMessage =
        "Content flagged by moderation") ∧
    (env.flagged env.draftText = false →
      (generatePostWithDetails env).moderationCalls =
        [env.draftText, env.refineText] ∧
      (env.flagged env.refineText = true →
        (generatePostWithDetails env).content = env.draftText) ∧
      (env.flagged env.refineText = false →
        (generatePostWithDetails env).content = env.refineText)) := by
  constructor
  · intro hf
    simp [generatePostWithDetails, hd, hm, hf, hc, hr]
  · intro hf
    have hflag2 : (env.useModeration && env.flagged env.draftText) = false := by
      rw [hm, hf]
      rfl
    rw [gen_completes env hd hflag2 hc hr]
    refine ⟨?_, ?_, ?_⟩
    · simp [hm]
    · intro h2
      simp [hm, h2]
    · intro h2
      simp [hm, h2]

/-- Witness for the amended claim C4 at two concrete attempts: the unflagged
one posts the refined candidate after two moderation calls; the one whose
refined candidate is flagged returns the initial draft. -/
theorem c4_amended_witness :
    (generatePostWithDetails c4env).content = "Ahoy refined treasure note ✍️" ∧
    (generatePostWithDetails c4envFlag).content = "Ahoy drafty treasure note" ∧
    (generatePostWithDetails c4envFlag).moderationCalls.length = 2 := by
  have h1 := (c4_amended c4env rfl rfl rfl rfl).2 rfl
  have h2 := (c4_amended c4envFlag rfl rfl rfl rfl).2 (by decide)
  refine ⟨h1.2.2 rfl, h2.2.1 (by decide), ?_⟩
  rw [h2.1]
  rfl

end BlueskyBot
namespace BlueskyBot

/-! ## Claim C5: winner selection of the Preference-Selection strategy -/

/-- The winner-line loop returns the first matching line's stripped
after-colon text, `""` when no line matches. -/
theorem findWinnerLine_eq (ls : List String) :
    findWinnerLine ls = (match ls.find? winnerPred with
      | some l => pyStrip (pyAfterColon l)
      | none => "") := by
  induction ls with
  | nil => rfl
  | cons l ls ih =>
      cases h : winnerPred l with
      | true => simp [findWinnerLine, h, List.find?_cons_of_pos]
      | false =>
          rw [List.find?_cons_of_neg _ (by simp [h])] at *
          simpa [findWinnerLine, h] using ih
  
/-- The emoji-fallback loop returns the first matching line stripped, `""`
when no line matches. -/
theorem findEmojiLine_eq (ls : List String) :
    findEmojiLine ls = (match ls.find? emojiPred with
      | some l => pyStrip l
      | none => "") := by
  induction ls with
  | nil => rfl
  | cons l ls ih =>
      cases h : emojiPred l with
      | true => simp [findEmojiLine, h, List.find?_cons_of_pos]
      | false =>
          rw [List.find?_cons_of_neg _ (by simp [h])] at *
          simpa [findEmojiLine, h] using ih

/-- A line accepted by the emoji fallback strips to more than 20 characters,
hence not to the empty string. -/
theorem strip_ne_of_emojiPred {l : String} (h : emojiPred l = true) :
    (pyStrip l == "") = false := by
  simp only [emojiPred, Bool.and_eq_true, decide_eq_true_eq] at h
  rw [beq_eq_false_iff_ne]
  intro he
  have h2 := h.2
  rw [he] at h2
  exact absurd h2 (by decide)

/-- Amended claim C5: the selected winner is the stripped after-colon text
of the first `SELECTED WINNER` line when that text is non-empty; otherwise
the first **evaluation-response** line containing the signature marker whose
stripped form exceeds 20 characters, stripped; otherwise the first parsed
candidate (empty when there are none). -/
theorem c5_amended (candidates : List String) (evaluation : String) :
    (selectBestCandidate candidates evaluation).1 =
      amendedSelect candidates evaluation := by
  have h1 := findWinnerLine_eq (pySplitLines evaluation)
  have h2 := findEmojiLine_eq (pySplitLines evaluation)
  simp only [selectBestCandidate, amendedSelect]
  rw [h1, h2]
  cases hw : (pySplitLines evaluation).find? winnerPred with
  | some l =>
      by_cases h : pyStrip (pyAfterColon l) = ""
      · simp only [h, beq_self_eq_true, if_true, ne_eq, not_true_eq_false, if_false]
        cases he : (pySplitLines evaluation).find? emojiPred with
        | some l2 =>
            have hne := strip_ne_of_emojiPred (List.find?_some he)
            simp [hne]
        | none => cases candidates <;> simp
      · have hb : (pyStrip (pyAfterColon l) == "") = false :=
          beq_eq_false_iff_ne.mpr h
        simp [hb, h]
  | none =>
      simp only [beq_self_eq_true, if_true, ne_eq, not_true_eq_false, if_false]
      cases he : (pySplitLines evaluation).find? emojiPred with
      | some l2 =>
          have hne := strip_ne_of_emojiPred (List.find?_some he)
          simp [hne]
      | none => cases candidates <;> simp

/-- The candidate list of the C5 scenario: one candidate, which contains
the signature marker. -/
def c5cands : List String := ["Ahoy spotted treasure at Shopify crew 🔄"]

/-- An evaluation response with no `SELECTED WINNER` line whose body
mentions the marker on a long line. -/
def c5eval : String := "RANKING: the treasure hunt goes well 🔄 indeed"

set_option maxRecDepth 8000 in
/-- Counterexample to claim C5 as stated: with the winner line absent, the
code selects a line of the evaluation response, not the first candidate
containing the marker demanded by the claim — the selected text is not in
the candidate list at all. -/
theorem c5_counterexample :
    (selectBestCandidate c5cands c5eval).1 =
      "RANKING: the treasure hunt goes well 🔄 indeed" ∧
    specSelectClaim c5cands c5eval =
      "Ahoy spotted treasure at Shopify crew 🔄" ∧
    (selectBestCandidate c5cands c5eval).1 ≠ specSelectClaim c5cands c5eval ∧
    ((selectBestCandidate c5cands c5eval).1 ∈ c5cands) = False := by
  refine ⟨by decide, by decide, by decide, by simp; decide⟩

end BlueskyBot
namespace BlueskyBot

/-! ## Claims C6 and C7: deployment -/

/-- The `deployed_models` row a successful deploy inserts. -/
def deployedRow (s : PrefStore) (sid : String) (n : Nat) : ModelRow :=
  { rowid := s.nextId, timestamp := s.clock, technique := "dpo"
    modelConfig := createDpoModelConfig (getTrainingData s sid)
    trainingExamples := n, status := "active" }

/-- The store a successful deploy produces. -/
def deploySuccess (s : PrefStore) (sid : String) (n : Nat) : PrefStore :=
  { prefs := s.prefs.map (fun r =>
      if r.sessionId == sid && r.technique == "dpo" then { r with deployed := true }
      else r)
    models := (s.models.map (fun r =>
      if r.technique == "dpo" then { r with status := "inactive" } else r)) ++
      [deployedRow s sid n]
    nextId := s.nextId + 1, clock := s.clock + 1 }

/-- A deploy for a session without training data raises before touching the
store. -/
theorem deploy_error_of_empty (s : PrefStore) (sid : String) (n : Nat)
    (h : getTrainingData s sid = []) :
    deployDpoModel s sid n =
      Except.error ("No training data found for session " ++ sid) := by
  simp only [deployDpoModel]
  rw [h]
  rfl

/-- A deploy for a session with training data succeeds with the transactional
update-and-insert store. -/
theorem deploy_ok_of_ne (s : PrefStore) (sid : String) (n : Nat)
    (h : getTrainingData s sid ≠ []) :
    deployDpoModel s sid n = Except.ok (deploySuccess s sid n) := by
  simp only [deployDpoModel]
  rw [isEmpty_false_of_ne_nil h]
  rfl

/-- The post-state of a successful deploy call. -/
theorem deployOk_of_ne (s : PrefStore) (sid : String) (n : Nat)
    (h : getTrainingData s sid ≠ []) :
    deployOk s sid n = deploySuccess s sid n := by
  unfold deployOk
  rw [deploy_ok_of_ne s sid n h]

/-- A row put through the deactivation `UPDATE` is never an active dpo row. -/
theorem mapped_not_active_dpo (r : ModelRow) :
    isActiveFor "dpo"
      (if r.technique == "dpo" then { r with status := "inactive" } else r) =
      false := by
  cases h : r.technique == "dpo" with
  | true => simp [h, isActiveFor]
  | false => simp [h, isActiveFor]

/-- The deactivation `UPDATE` does not change whether a row is active for a
technique other than dpo. -/
theorem mapped_active_other (tech : String) (ht : ("dpo" == tech) = false)
    (r : ModelRow) :
    isActiveFor tech
      (if r.technique == "dpo" then { r with status := "inactive" } else r) =
      isActiveFor tech r := by
  cases h : r.technique == "dpo" with
  | true =>
      have heq : r.technique = "dpo" := eq_of_beq h
      simp [isActiveFor, heq, ht]
  | false => simp [h]

/-- After the transactional deactivate-then-insert, the new row is the only
active dpo row. -/
theorem filter_active_map_append (l : List ModelRow) (new : ModelRow)
    (hnew : isActiveFor "dpo" new = true) :
    ((l.map (fun r =>
        if r.technique == "dpo" then { r with status := "inactive" } else r)) ++
      [new]).filter (isActiveFor "dpo") = [new] := by
  rw [List.filter_append]
  have h1 : (l.map (fun r =>
      if r.technique == "dpo" then { r with status := "inactive" } else r)).filter
        (isActiveFor "dpo") = [] := by
    rw [List.filter_eq_nil_iff]
    intro a ha
    obtain ⟨r, _, rfl⟩ := List.mem_map.mp ha
    rw [mapped_not_active_dpo r]
    simp
  rw [h1]
  simp [hnew]

/-- The only active dpo profile after a successful deploy is the inserted
row. -/
theorem filter_active_deployOk (s : PrefStore) (sid : String) (n : Nat)
    (h : getTrainingData s sid ≠ []) :
    (deployOk s sid n).models.filter (isActiveFor "dpo") = [deployedRow s sid n] := by
  rw [deployOk_of_ne s sid n h]
  simp only [deploySuccess]
  exact filter_active_map_append s.models (deployedRow s sid n) rfl

/-- Filtered lengths agree when the function preserves the predicate. -/
theorem filter_length_map_eq {α : Type} (g : α → α) (p : α → Bool)
    (h : ∀ r, p (g r) = p r) (l : List α) :
    ((l.map g).filter p).length = (l.filter p).length := by
  induction l with
  | nil => rfl
  | cons a as ih =>
      simp only [List.map_cons, List.filter_cons, h a]
      cases hp : p a <;> simp [hp, ih]

/-- One manager operation preserves the at-most-one-active invariant. -/
theorem countActive_applyOp_le (s : PrefStore) (op : PrefOp)
    (h : ∀ tech, countActive s tech ≤ 1) :
    ∀ tech, countActive (applyOp s op) tech ≤ 1 := by
  intro tech
  cases op with
  | save d sid => exact h tech
  | deploy sid n =>
      show countActive (deployOk s sid n) tech ≤ 1
      by_cases hne : getTrainingData s sid = []
      · have : deployOk s sid n = s := by
          unfold deployOk
          rw [deploy_error_of_empty s sid n hne]
        rw [this]
        exact h tech
      · rw [deployOk_of_ne s sid n hne]
        cases ht : ("dpo" == tech) with
        | true =>
            have htech : tech = "dpo" := (eq_of_beq ht).symm
            subst htech
            show ((deploySuccess s sid n).models.filter (isActiveFor "dpo")).length ≤ 1
            rw [show (deploySuccess s sid n).models.filter (isActiveFor "dpo") =
              [deployedRow s sid n] from by
                simpa [deploySuccess] using
                  filter_active_map_append s.models (deployedRow s sid n) rfl]
            exact Nat.le_refl 1
        | false =>
            show ((deploySuccess s sid n).models.filter (isActiveFor tech)).length ≤ 1
            simp only [deploySuccess]
            rw [List.filter_append]
            have hnew : isActiveFor tech (deployedRow s sid n) = false := by
              simp [isActiveFor, deployedRow, ht]
            have h2 : [deployedRow s sid n].filter (isActiveFor tech) = [] := by
              simp [hnew]
            rw [h2, List.append_nil]
            rw [filter_length_map_eq _ _ (mapped_active_other tech ht)]
            exact h tech

/-- The at-most-one-active invariant holds along any operation sequence. -/
theorem countActive_le_fold (ops : List PrefOp) :
    ∀ s : PrefStore, (∀ tech, countActive s tech ≤ 1) →
      ∀ tech, countActive (ops.foldl applyOp s) tech ≤ 1 := by
  induction ops with
  | nil => intro s h tech; exact h tech
  | cons op ops ih =>
      intro s h tech
      exact ih (applyOp s op) (countActive_applyOp_le s op h) tech

/-- Claim C6: in every store reachable from a fresh database by save and
deploy operations, at most one profile per technique is active; a successful
deploy atomically leaves exactly the newly inserted row active, so deploying
twice leaves exactly one active profile — the second one. -/
theorem c6_active_profile_invariant :
    (∀ (ops : List PrefOp) (tech : String),
      countActive (applyOps ops) tech ≤ 1) ∧
    (∀ (s : PrefStore) (sid : String) (n : Nat), getTrainingData s sid ≠ [] →
      activeIds (deployOk s sid n) "dpo" = [s.nextId] ∧
      countActive (deployOk s sid n) "dpo" = 1) ∧
    (∀ (s : PrefStore) (sid1 sid2 : String) (n1 n2 : Nat),
      getTrainingData s sid1 ≠ [] →
      getTrainingData (deployOk s sid1 n1) sid2 ≠ [] →
      activeIds (deployOk (deployOk s sid1 n1) sid2 n2) "dpo" =
        [(deployOk s sid1 n1).nextId] ∧
      countActive (deployOk (deployOk s sid1 n1) sid2 n2) "dpo" = 1) := by
  have hsingle : ∀ (s : PrefStore) (sid : String) (n : Nat),
      getTrainingData s sid ≠ [] →
      activeIds (deployOk s sid n) "dpo" = [s.nextId] ∧
      countActive (deployOk s sid n) "dpo" = 1 := by
    intro s sid n h
    have hf := filter_active_deployOk s sid n h
    constructor
    · unfold activeIds
      rw [hf]
      rfl
    · unfold countActive
      rw [hf]
      rfl
  refine ⟨?_, hsingle, ?_⟩
  · intro ops tech
    exact countActive_le_fold ops emptyStore (fun tech2 => Nat.zero_le 1) tech
  · intro s sid1 sid2 n1 n2 h1 h2
    exact hsingle (deployOk s sid1 n1) sid2 n2 h2

/-- Claim C7: deploying for a session with no stored training data fails
with the not-found `ValueError` and leaves the store unchanged — no profile
row is created and no row is modified. -/
theorem c7_deploy_unknown (s : PrefStore) (sid : String) (n : Nat)
    (h : getTrainingData s sid = []) :
    deployDpoModel s sid n =
      Except.error ("No training data found for session " ++ sid) ∧
    deployOk s sid n = s := by
  refine ⟨deploy_error_of_empty s sid n h, ?_⟩
  unfold deployOk
  rw [deploy_error_of_empty s sid n h]

end BlueskyBot
namespace BlueskyBot

/-- Training data used by the deployment witnesses. -/
def c6data : SessionData :=
  { dpoLearningData := [{ candidate := "Ahoy AI treasure", rating := 5 }] }

/-- A store holding one saved training session. -/
def c6store : PrefStore := saveStep emptyStore c6data "s1"

/-- Witness for C6: after saving one session and deploying twice, exactly
one profile is active — the one the second deploy inserted (rowid 3). -/
theorem c6_active_profile_invariant_witness :
    countActive (applyOps
      [PrefOp.save c6data "s1", PrefOp.deploy "s1" 1, PrefOp.deploy "s1" 1])
      "dpo" ≤ 1 ∧
    activeIds (deployOk (deployOk c6store "s1" 1) "s1" 1) "dpo" =
      [(deployOk c6store "s1" 1).nextId] ∧
    activeIds (deployOk (deployOk c6store "s1" 1) "s1" 1) "dpo" = [3] ∧
    countActive (deployOk (deployOk c6store "s1" 1) "s1" 1) "dpo" = 1 := by
  have h := c6_active_profile_invariant
  have h2 := h.2.2 c6store "s1" "s1" 1 1 (by decide) (by decide)
  exact ⟨h.1 [PrefOp.save c6data "s1", PrefOp.deploy "s1" 1, PrefOp.deploy "s1" 1]
    "dpo", h2.1, h2.1.trans (by decide), h2.2⟩

/-- Witness for C7: deploying for an unknown session against a fresh store
raises the not-found error and leaves the store untouched. -/
theorem c7_deploy_unknown_witness :
    deployDpoModel emptyStore "nosuch" 3 =
      Except.error "No training data found for session nosuch" ∧
    deployOk emptyStore "nosuch" 3 = emptyStore := by
  have h := c7_deploy_unknown emptyStore "nosuch" 3 rfl
  exact ⟨h.1.trans (congrArg Except.error (by decide)), h.2⟩

/-! ## Claim C9: saved sessions concatenate on read -/

/-- Claim C9: when a session id has no prior rows, saving example list A and
then example list B under it and reading the session's training data yields
exactly A followed by B — timestamp order, nothing duplicated, nothing
lost. -/
theorem c9_training_concat (s : PrefStore) (sid : String) (dA dB : SessionData)
    (h : sessionRows s sid = []) :
    getTrainingData (saveStep (saveStep s dA sid) dB sid) sid =
      dA.dpoLearningData ++ dB.dpoLearningData := by
  unfold getTrainingData
  have hrows : sessionRows (saveStep (saveStep s dA sid) dB sid) sid =
      [{ rowid := s.nextId, timestamp := s.clock, technique := "dpo"
         sessionId := sid, preferencesData := dA, deployed := false },
       { rowid := s.nextId + 1, timestamp := s.clock + 1, technique := "dpo"
         sessionId := sid, preferencesData := dB, deployed := false }] := by
    unfold sessionRows at h ⊢
    unfold saveStep saveDpoTrainingSession
    simp [List.filter_append, h]
  rw [hrows]
  simp [sortByTs, insertByTs, Nat.le_succ]

/-- First saved batch of the C9 witness. -/
def c9dataA : SessionData :=
  { dpoLearningData := [{ candidate := "Ahoy AI one", rating := 5 }] }

/-- Second saved batch of the C9 witness. -/
def c9dataB : SessionData :=
  { dpoLearningData := [{ candidate := "Matey ML two", rating := 2 },
                        { candidate := "Avast GPT three", rating := 4 }] }

/-- Witness for C9 on a fresh store and two concrete batches. -/
theorem c9_training_concat_witness :
    getTrainingData (saveStep (saveStep emptyStore c9dataA "sess") c9dataB "sess")
      "sess" = c9dataA.dpoLearningData ++ c9dataB.dpoLearningData ∧
    getTrainingData (saveStep (saveStep emptyStore c9dataA "sess") c9dataB "sess")
      "sess" = [{ candidate := "Ahoy AI one", rating := 5 },
                { candidate := "Matey ML two", rating := 2 },
                { candidate := "Avast GPT three", rating := 4 }] :=
  ⟨c9_training_concat emptyStore "sess" c9dataA c9dataB rfl, by decide⟩

/-! ## Claim C8: the length rule of validation -/

/-- Claim C8: every candidate longer than 300 characters is rejected by all
three validators regardless of its other content, and at 300 characters or
less the length rule never rejects — the result is exactly the conjunction
of the remaining rules (so an otherwise-valid text of exactly 300 characters
passes). -/
theorem c8_length_rule (t : String) (rules : Rules) :
    (300 < t.length →
      baseValidatePost rules t = false ∧ selfRefineValidatePost t = false ∧
      dpoValidatePost t = false) ∧
    (t.length ≤ 300 →
      baseValidatePost rules t = (!hasForbidden rules t && !tooManyHashtags rules t) ∧
      selfRefineValidatePost t = (pyContains "✍️" t && !hasProhibited t) ∧
      dpoValidatePost t = (pyContains "🔄" t && !hasProhibited t)) := by
  constructor
  · intro h
    refine ⟨?_, ?_, ?_⟩
    · unfold baseValidatePost
      rw [if_pos h]
    · unfold selfRefineValidatePost
      rw [if_pos h]
    · unfold dpoValidatePost
      rw [if_pos h]
  · intro h
    have h2 : ¬ 300 < t.length := Nat.not_lt.mpr h
    refine ⟨?_, ?_, ?_⟩
    · unfold baseValidatePost
      rw [if_neg h2]
      cases hf : hasForbidden rules t <;> cases hh : tooManyHashtags rules t <;>
        simp [hf, hh]
    · unfold selfRefineValidatePost
      rw [if_neg h2]
      cases hc : pyContains "✍️" t <;> cases hp : hasProhibited t <;>
        simp [hc, hp]
    · unfold dpoValidatePost
      rw [if_neg h2]
      cases hc : pyContains "🔄" t <;> cases hp : hasProhibited t <;>
        simp [hc, hp]

/-- A 300-character text satisfying the remaining Self-Critique rules. -/
def t300 : String := String.mk (List.replicate 298 'a') ++ "✍️"

/-- A 301-character text. -/
def t301 : String := String.mk (List.replicate 301 'b')

/-- A configuration for the base validator witness. -/
def rules0 : Rules := { forbidden_words := ["crypto"], max_hashtags := 3 }

set_option maxRecDepth 100000 in
/-- Witness for C8: the 301-character text fails all three validators, and
the 300-character boundary text passes the Self-Critique validator. -/
theorem c8_length_rule_witness :
    300 < t301.length ∧ baseValidatePost rules0 t301 = false ∧
    selfRefineValidatePost t301 = false ∧ dpoValidatePost t301 = false ∧
    t300.length = 300 ∧ selfRefineValidatePost t300 = true := by
  have hlen : 300 < t301.length := by decide
  have h1 := (c8_length_rule t301 rules0).1 hlen
  have hle : t300.length ≤ 300 := by decide
  have h2 := ((c8_length_rule t300 rules0).2 hle).2.1
  refine ⟨hlen, h1.1, h1.2.1, h1.2.2, by decide, ?_⟩
  rw [h2]
  decide

end BlueskyBot
